import Mathlib

/-! Verification of the CarLog data-access layer (backend/db/db_helper.py).

The Python module manages SQLite connections, two transaction-scope context
managers, generic CRUD executors, schema introspection and schema
initialization plus demo seeding.  This file embeds that module shallowly:

* SQLite values are modelled by `Value` (NULL, INTEGER, REAL, TEXT); REAL
  literals are embedded as exact rationals, since the layer only stores and
  compares them and never performs floating-point arithmetic.
* A fetched row (an `sqlite3.Row` produced with the row factory enabled and
  converted by `row_to_dict`) is an ordered association list of column
  name / value pairs.
* Python dicts preserve insertion order, so every `data` dict parameter is
  embedded as an ordered association list `List (String × Value)`.
* The fragment of the SQLite engine exercised by the module
  (CREATE TABLE IF NOT EXISTS, INSERT, INSERT OR IGNORE, UPDATE, DELETE under
  PRAGMA foreign_keys = ON, PRAGMA table_info, COUNT) is modelled over a
  store whose tables carry exactly the column and constraint declarations
  transcribed from the schema script in `_create_tables_inline`.
-/

/-- A SQLite storage value. -/
inductive Value where
  | null : Value
  | int : Int → Value
  | real : Rat → Value
  | text : String → Value
deriving DecidableEq

/-- A result row: ordered column-name/value pairs (dict(sqlite3.Row)). -/
abbrev Row := List (String × Value)

/-- Value of column `c` in row `r` (first occurrence). -/
def lookupCol (r : Row) (c : String) : Option Value :=
  match r.find? (fun p => p.1 == c) with
  | some p => some p.2
  | none => none

/-- A column DEFAULT clause: none, a literal, or datetime(now). -/
inductive Dflt where
  | nodefault : Dflt
  | val : Value → Dflt
  | now : Dflt
deriving DecidableEq

/-- One column declaration of a CREATE TABLE statement. -/
structure ColDef where
  name : String
  notNull : Bool
  dflt : Dflt
  uniq : Bool
deriving DecidableEq

/-- A declared FOREIGN KEY ... REFERENCES constraint of a table. -/
structure ForeignKey where
  childCol : String
  parentTable : String
  parentCol : String
deriving DecidableEq

/-- A table declaration: name, columns in declaration order, primary-key
columns, whether the primary key is INTEGER ... AUTOINCREMENT, and the
declared foreign-key constraints. -/
structure TableDef where
  name : String
  cols : List ColDef
  pk : List String
  rowidAuto : Bool
  fks : List ForeignKey
deriving DecidableEq

/-- Shorthand: plain nullable column with no default. -/
def cPlain (n : String) : ColDef := ⟨n, false, .nodefault, false⟩

/-- Shorthand: NOT NULL column with no default. -/
def cReq (n : String) : ColDef := ⟨n, true, .nodefault, false⟩

/-- Shorthand: column with TEXT DEFAULT (datetime(now)). -/
def cStamp (n : String) : ColDef := ⟨n, false, .now, false⟩

/-- Shorthand: nullable column with a literal default. -/
def cDflt (n : String) (v : Value) : ColDef := ⟨n, false, .val v, false⟩

/-- users: id INTEGER PRIMARY KEY AUTOINCREMENT, name TEXT NOT NULL,
email TEXT UNIQUE, created_at / updated_at TEXT DEFAULT (datetime(now)). -/
def usersTd : TableDef :=
  { name := "users"
    cols := [cPlain "id", cReq "name", ⟨"email", false, .nodefault, true⟩,
             cStamp "created_at", cStamp "updated_at"]
    pk := ["id"], rowidAuto := true, fks := [] }

/-- vehicles: vin TEXT PRIMARY KEY, year/make/model NOT NULL, trim,
engine_type, color, purchase_date, purchase_price, current_mileage
INTEGER DEFAULT 0, user_id, created_at / updated_at stamps.  Note: the
source declares no REFERENCES clause on user_id. -/
def vehiclesTd : TableDef :=
  { name := "vehicles"
    cols := [cPlain "vin", cReq "year", cReq "make", cReq "model",
             cPlain "trim", cPlain "engine_type", cPlain "color",
             cPlain "purchase_date", cPlain "purchase_price",
             cDflt "current_mileage" (.int 0), cPlain "user_id",
             cStamp "created_at", cStamp "updated_at"]
    pk := ["vin"], rowidAuto := false, fks := [] }

/-- repairs: id INTEGER PRIMARY KEY AUTOINCREMENT, vin TEXT NOT NULL
(no REFERENCES clause in the source), service TEXT NOT NULL, description,
cost REAL NOT NULL DEFAULT 0, mileage, date TEXT NOT NULL, shop_name,
notes, created_at / updated_at stamps. -/
def repairsTd : TableDef :=
  { name := "repairs"
    cols := [cPlain "id", cReq "vin", cReq "service", cPlain "description",
             ⟨"cost", true, .val (.int 0), false⟩, cPlain "mileage",
             cReq "date", cPlain "shop_name", cPlain "notes",
             cStamp "created_at", cStamp "updated_at"]
    pk := ["id"], rowidAuto := true, fks := [] }

/-- fuel_logs: id AUTOINCREMENT, vin TEXT NOT NULL, gallons / price_per_gallon
/ total_cost REAL NOT NULL, odometer INTEGER NOT NULL, date TEXT NOT NULL,
station, fuel_type TEXT DEFAULT Regular, full_tank INTEGER DEFAULT 1, notes,
created_at / updated_at stamps. -/
def fuelLogsTd : TableDef :=
  { name := "fuel_logs"
    cols := [cPlain "id", cReq "vin", cReq "gallons", cReq "price_per_gallon",
             cReq "total_cost", cReq "odometer", cReq "date", cPlain "station",
             cDflt "fuel_type" (.text "Regular"), cDflt "full_tank" (.int 1),
             cPlain "notes", cStamp "created_at", cStamp "updated_at"]
    pk := ["id"], rowidAuto := true, fks := [] }

/-- maintenance_intervals: id AUTOINCREMENT, vin TEXT NOT NULL, service_type
TEXT NOT NULL, interval_miles, interval_months, last_performed_mileage,
last_performed_date, notes, created_at / updated_at stamps. -/
def maintenanceIntervalsTd : TableDef :=
  { name := "maintenance_intervals"
    cols := [cPlain "id", cReq "vin", cReq "service_type",
             cPlain "interval_miles", cPlain "interval_months",
             cPlain "last_performed_mileage", cPlain "last_performed_date",
             cPlain "notes", cStamp "created_at", cStamp "updated_at"]
    pk := ["id"], rowidAuto := true, fks := [] }

/-- mileage_history: id AUTOINCREMENT, vin TEXT NOT NULL, mileage INTEGER
NOT NULL, date TEXT NOT NULL, source TEXT DEFAULT manual, notes, created_at
stamp.  This table declares no updated_at column. -/
def mileageHistoryTd : TableDef :=
  { name := "mileage_history"
    cols := [cPlain "id", cReq "vin", cReq "mileage", cReq "date",
             cDflt "source" (.text "manual"), cPlain "notes",
             cStamp "created_at"]
    pk := ["id"], rowidAuto := true, fks := [] }

/-- trips: id AUTOINCREMENT, vin TEXT NOT NULL, start_location, end_location,
distance REAL NOT NULL, date TEXT NOT NULL, purpose, is_business INTEGER
DEFAULT 0, notes, created_at / updated_at stamps. -/
def tripsTd : TableDef :=
  { name := "trips"
    cols := [cPlain "id", cReq "vin", cPlain "start_location",
             cPlain "end_location", cReq "distance", cReq "date",
             cPlain "purpose", cDflt "is_business" (.int 0), cPlain "notes",
             cStamp "created_at", cStamp "updated_at"]
    pk := ["id"], rowidAuto := true, fks := [] }

/-- settings: key TEXT PRIMARY KEY, value TEXT NOT NULL, updated_at stamp. -/
def settingsTd : TableDef :=
  { name := "settings"
    cols := [cPlain "key", cReq "value", cStamp "updated_at"]
    pk := ["key"], rowidAuto := false, fks := [] }

/-- The CREATE TABLE IF NOT EXISTS statements of the schema script in
`_create_tables_inline`, in script order.  The script contains exactly these
eight statements. -/
def schemaTableDefs : List TableDef :=
  [usersTd, vehiclesTd, repairsTd, fuelLogsTd, maintenanceIntervalsTd,
   mileageHistoryTd, tripsTd, settingsTd]

/-- Names of the tables the schema script creates, in script order. -/
def schemaTableNames : List String := schemaTableDefs.map TableDef.name

/-- The declaration of table `n`, looked up among the schema's tables.
Every table of this application's store is created by the schema script,
so a present table always carries its declared definition. -/
def schemaOf (n : String) : Option TableDef :=
  schemaTableDefs.find? (fun td => td.name == n)

/-- Runtime state of one table: its stored rows (in insertion order) and the
next rowid the engine will assign. -/
structure TableState where
  rows : List Row
  nextId : Nat
deriving DecidableEq

/-- The store: present tables, in creation order, each with its state.
Table declarations are fixed by `schemaOf` (see its docstring). -/
structure DB where
  tables : List (String × TableState)
deriving DecidableEq

/-- State of table `n`, if present. -/
def DB.findTable (db : DB) (n : String) : Option TableState :=
  match db.tables.find? (fun p => p.1 == n) with
  | some p => some p.2
  | none => none

/-- Replace the state of the first table entry named `n`. -/
def setTableList : List (String × TableState) → String → TableState →
    List (String × TableState)
  | [], _, _ => []
  | p :: ps, n, t => if p.1 == n then (p.1, t) :: ps else p :: setTableList ps n t

/-- Replace the state of table `n`. -/
def DB.setTable (db : DB) (n : String) (t : TableState) : DB :=
  ⟨setTableList db.tables n t⟩

/-- CREATE TABLE IF NOT EXISTS: a present table is left untouched (whatever
its contents); an absent one is created empty with rowid counter 1. -/
def createTableIfNotExists (db : DB) (n : String) : DB :=
  match db.findTable n with
  | some _ => db
  | none => ⟨db.tables ++ [(n, ⟨[], 1⟩)]⟩

/-- conn.executescript(schema): run the eight CREATE TABLE IF NOT EXISTS
statements of `_create_tables_inline` in script order. -/
def runSchemaScript (db : DB) : DB :=
  schemaTableDefs.foldl (fun d td => createTableIfNotExists d td.name) db

/-- The row the engine stores for an INSERT into a table declared by `td`
listing `provided` column/value pairs: every declared column in declaration
order, taking the provided value, else the auto-assigned rowid for an
AUTOINCREMENT id column, else the declared default (`now` is the value of
datetime(now) at execution time), else NULL. -/
def buildRow (td : TableDef) (provided : List (String × Value)) (now : Value)
    (nid : Nat) : Row :=
  td.cols.map (fun c =>
    match lookupCol provided c.name with
    | some v => (c.name, v)
    | none =>
      if td.rowidAuto && c.name == "id" then (c.name, .int nid)
      else match c.dflt with
        | .val v => (c.name, v)
        | .now => (c.name, now)
        | .nodefault => (c.name, .null))

/-- Does some provided column name not exist in the declaration?  SQLite
rejects such an INSERT/UPDATE outright (not a constraint violation, so OR
IGNORE does not apply). -/
def unknownCol (td : TableDef) (provided : List (String × Value)) : Bool :=
  provided.any (fun p => !(td.cols.any (fun c => c.name == p.1)))

/-- NOT NULL constraint check on a fully built row. -/
def violatesNotNull (td : TableDef) (r : Row) : Bool :=
  td.cols.any (fun c => c.notNull && (lookupCol r c.name == some .null))

/-- The primary-key tuple of a row. -/
def pkVals (td : TableDef) (r : Row) : List (Option Value) :=
  td.pk.map (lookupCol r)

/-- PRIMARY KEY / UNIQUE conflict of a candidate row against stored rows
(UNIQUE columns ignore NULL values, as in SQL). -/
def conflicts (td : TableDef) (t : TableState) (r : Row) : Bool :=
  (!td.pk.isEmpty && t.rows.any (fun r0 => pkVals td r0 == pkVals td r))
  || td.cols.any (fun c => c.uniq &&
       match lookupCol r c.name with
       | some .null => false
       | none => false
       | some v => t.rows.any (fun r0 => lookupCol r0 c.name == some v))

/-- FOREIGN KEY check for an inserted row: every declared foreign key with a
non-NULL child value must match some parent row (PRAGMA foreign_keys = ON). -/
def fkInsertViolation (db : DB) (td : TableDef) (r : Row) : Bool :=
  td.fks.any (fun fk =>
    match lookupCol r fk.childCol with
    | some .null => false
    | none => false
    | some v =>
      match db.findTable fk.parentTable with
      | none => true
      | some pt => !(pt.rows.any (fun pr => lookupCol pr fk.parentCol == some v)))

/-- INSERT INTO / INSERT OR IGNORE INTO a table.  Returns the updated store
and the cursor's lastrowid.  A constraint violation (NOT NULL, PRIMARY
KEY/UNIQUE, FOREIGN KEY) aborts the statement, or silently skips the row
under OR IGNORE; a missing table or unknown column is always an error. -/
def insertRow (db : DB) (now : Value) (tname : String)
    (provided : List (String × Value)) (orIgnore : Bool) :
    Except String (DB × Nat) :=
  match schemaOf tname, db.findTable tname with
  | some td, some t =>
    if unknownCol td provided then
      .error ("table " ++ tname ++ " has no such column")
    else if violatesNotNull td (buildRow td provided now t.nextId)
        || conflicts td t (buildRow td provided now t.nextId)
        || fkInsertViolation db td (buildRow td provided now t.nextId) then
      if orIgnore then .ok (db, 0)
      else .error "constraint failed"
    else
      .ok (db.setTable tname
             ⟨t.rows ++ [buildRow td provided now t.nextId], t.nextId + 1⟩,
           t.nextId)
  | _, _ => .error ("no such table: " ++ tname)

/-- DELETE FROM `tname` WHERE `pred`.  Under PRAGMA foreign_keys = ON the
engine rejects the statement when a declared foreign key of some present
table still references a deleted row (default ON DELETE behaviour: restrict).
Returns the updated store and the number of deleted rows. -/
def deleteRows (db : DB) (tname : String) (pred : Row → Bool)
    (fkEnforced : Bool) : Except String (DB × Nat) :=
  match db.findTable tname with
  | none => .error ("no such table: " ++ tname)
  | some t =>
    let deleted := t.rows.filter pred
    let violation := db.tables.any (fun p =>
      match schemaOf p.1 with
      | none => false
      | some ctd => ctd.fks.any (fun fk =>
          fk.parentTable == tname &&
          p.2.rows.any (fun cr =>
            match lookupCol cr fk.childCol with
            | some .null => false
            | none => false
            | some v => deleted.any (fun dr => lookupCol dr fk.parentCol == some v))))
    if fkEnforced && violation then .error "FOREIGN KEY constraint failed"
    else .ok (db.setTable tname ⟨t.rows.filter (fun r => !pred r), t.nextId⟩,
              deleted.length)

/-- Apply a SET assignment list to one row (the row keeps its column
order).  When one column is assigned more than once SQLite uses the
rightmost assignment, so the lookup scans the reversed assignment list —
in particular the automatic updated_at stamp, appended last by
execute_update, wins over any caller-supplied updated_at value. -/
def setCols (r : Row) (sets : List (String × Value)) : Row :=
  r.map (fun p =>
    match lookupCol sets.reverse p.1 with
    | some v => (p.1, v)
    | none => p)

/-- PRIMARY KEY conflict of the updated image of row `i` against the
other rows' images. -/
def updPkConflict (td : TableDef) (newRows : List Row) (i : Nat) (r1 : Row) :
    Bool :=
  !td.pk.isEmpty && (List.range newRows.length).any (fun j =>
    j != i &&
      (match newRows.get? j with
       | some rj => pkVals td rj == pkVals td r1
       | none => false))

/-- UNIQUE-column conflict of the updated image of row `i` against the
other rows' images (NULL values never conflict, as in SQL). -/
def updUniqueConflict (td : TableDef) (newRows : List Row) (i : Nat)
    (r1 : Row) : Bool :=
  td.cols.any (fun c => c.uniq &&
    (match lookupCol r1 c.name with
     | some .null => false
     | none => false
     | some v => (List.range newRows.length).any (fun j =>
         j != i &&
           (match newRows.get? j with
            | some rj => lookupCol rj c.name == some v
            | none => false))))

/-- UPDATE-time constraint enforcement: the statement fails when some row
matched by the WHERE predicate has an updated image that violates NOT
NULL, collides with another row on the PRIMARY KEY or a UNIQUE column, or
breaks a declared FOREIGN KEY (PRAGMA foreign_keys = ON).  Rows the
predicate does not match are not modified and not re-checked, as in
SQLite. -/
def updateViolation (db : DB) (td : TableDef) (oldRows newRows : List Row)
    (pred : Row → Bool) : Bool :=
  (List.range oldRows.length).any (fun i =>
    match oldRows.get? i, newRows.get? i with
    | some r0, some r1 =>
      pred r0 &&
        (violatesNotNull td r1 || updPkConflict td newRows i r1
          || updUniqueConflict td newRows i r1 || fkInsertViolation db td r1)
    | _, _ => false)

/-- UPDATE `tname` SET `sets` WHERE `pred`.  Rejects unknown SET columns,
raises a constraint error when a modified row violates the table's
constraints, and otherwise applies the assignments to every matching row
and returns the number of matching rows (SQLite changes()). -/
def updateRows (db : DB) (tname : String) (sets : List (String × Value))
    (pred : Row → Bool) : Except String (DB × Nat) :=
  match schemaOf tname, db.findTable tname with
  | some td, some t =>
    if unknownCol td sets then
      .error ("no such column")
    else if updateViolation db td t.rows
        (t.rows.map (fun r => if pred r then setCols r sets else r)) pred then
      .error ("constraint failed")
    else
      .ok (db.setTable tname
             ⟨t.rows.map (fun r => if pred r then setCols r sets else r),
              t.nextId⟩,
           (t.rows.filter pred).length)
  | _, _ => .error ("no such table: " ++ tname)

/-- PRAGMA table_info(`n`): one row per declared column for a present table,
in declaration order; no rows (and no error) for an absent table. -/
def pragmaTableInfoNames (db : DB) (n : String) : List String :=
  match db.findTable n with
  | none => []
  | some _ =>
    match schemaOf n with
    | some td => td.cols.map ColDef.name
    | none => []

/-- A Python value as returned by `execute_query`/`execute_insert`: None, a
converted row, a list of converted rows, an int, or a bool. -/
inductive PyResult where
  | pyNone : PyResult
  | pyDict : Row → PyResult
  | pyList : List Row → PyResult
  | pyInt : Int → PyResult
  | pyBool : Bool → PyResult
deriving DecidableEq

/-- row_to_dict: converts an sqlite3.Row to a dict (identity in this model,
where rows already are ordered name/value maps); None maps to None. -/
def row_to_dict : Option Row → Option Row
  | none => none
  | some r => some r

/-- rows_to_list: converts a list of sqlite3.Row objects to a list of dicts. -/
def rows_to_list (rows : List Row) : List Row :=
  rows.map (fun r => r)

/-- str.strip(): drop leading and trailing whitespace. -/
def pyStrip (s : List Char) : List Char :=
  ((s.dropWhile Char.isWhitespace).reverse.dropWhile Char.isWhitespace).reverse

/-- str.upper() on the ASCII statement strings this layer handles. -/
def pyUpper (s : List Char) : List Char := s.map Char.toUpper

/-- The dispatch test of `execute_query`:
query.strip().upper().startswith("SELECT"), over the character sequence of
the query string. -/
def isSelect (q : String) : Bool :=
  List.isPrefixOf "SELECT".toList (pyUpper (pyStrip q.toList))

/-- execute_query: runs one statement inside the auto-commit scope.  The
statement's engine-side effect is abstracted by its outputs: the fetched
`rows` of a cursor after a SELECT, and the cursor's `rowcount` after any
other statement.  If the trimmed, upper-cased query starts with SELECT the
function returns the first converted row or None under `fetch_one`, else the
converted row list; otherwise it returns the rowcount.  (`fetch_all` is
accepted and ignored, exactly as in the source.) -/
def execute_query (q : String) (fetch_one : Bool) (fetch_all : Bool)
    (rows : List Row) (rowcount : Int) : PyResult :=
  if isSelect q then
    if fetch_one then
      match rows.head? with
      | some r =>
        match row_to_dict (some r) with
        | some d => .pyDict d
        | none => .pyNone
      | none => .pyNone
    else .pyList (rows_to_list rows)
  else .pyInt rowcount

/-- The INSERT statement string built by `execute_insert`:
columns = ", ".join(data.keys()); placeholders = ", ".join("?" per entry). -/
def execute_insert_sql (table : String) (data : List (String × Value)) :
    String :=
  let columns := String.intercalate ", " (data.map Prod.fst)
  let placeholders := String.intercalate ", " (data.map (fun _ => "?"))
  "INSERT INTO " ++ table ++ " (" ++ columns ++ ") VALUES (" ++ placeholders ++ ")"

/-- The parameter tuple `execute_insert` binds: tuple(data.values()). -/
def execute_insert_params (data : List (String × Value)) : List Value :=
  data.map Prod.snd

/-- execute_insert: runs the built INSERT inside the auto-commit scope and
returns cursor.lastrowid when return_id, else True. -/
def execute_insert (db : DB) (now : Value) (table : String)
    (data : List (String × Value)) (return_id : Bool) :
    Except String (DB × PyResult) := do
  let (db2, rid) ← insertRow db now table data false
  .ok (db2, if return_id then .pyInt (Int.ofNat rid) else .pyBool true)

/-- The UPDATE statement string built by `execute_update`:
set_clause = ", ".join(k = ? per key), then the automatic
updated_at = datetime(now) assignment, then the caller's WHERE fragment. -/
def execute_update_sql (table : String) (data : List (String × Value))
    (whereClause : String) : String :=
  let set_clause :=
    String.intercalate ", " ((data.map Prod.fst).map (fun k => k ++ " = ?"))
  "UPDATE " ++ table ++ " SET " ++ set_clause ++
    ", updated_at = datetime(\x27now\x27) WHERE " ++ whereClause

/-- The parameter tuple `execute_update` binds:
tuple(data.values()) + where_params. -/
def execute_update_params (data : List (String × Value))
    (where_params : List Value) : List Value :=
  data.map Prod.snd ++ where_params

/-- execute_update: runs the built UPDATE inside the auto-commit scope.  The
WHERE fragment and its parameters are abstracted by the row predicate they
denote.  The statement assigns every data column and then updated_at :=
datetime(now); it returns cursor.rowcount. -/
def execute_update (db : DB) (now : Value) (table : String)
    (data : List (String × Value)) (pred : Row → Bool) :
    Except String (DB × PyResult) := do
  let (db2, n) ← updateRows db table (data ++ [("updated_at", now)]) pred
  .ok (db2, .pyInt (Int.ofNat n))

/-- The DELETE statement string built by `execute_delete`. -/
def execute_delete_sql (table : String) (whereClause : String) : String :=
  "DELETE FROM " ++ table ++ " WHERE " ++ whereClause

/-- execute_delete: runs the built DELETE inside the auto-commit scope, on a
connection with PRAGMA foreign_keys = ON (every connection of this module
enables it); returns cursor.rowcount. -/
def execute_delete (db : DB) (table : String) (pred : Row → Bool) :
    Except String (DB × PyResult) := do
  let (db2, n) ← deleteRows db table pred true
  .ok (db2, .pyInt (Int.ofNat n))

/-- table_exists: SELECT name FROM sqlite_master WHERE type='table' AND
name=? fetched with fetch_one — true iff the catalog lists the table. -/
def table_exists (db : DB) (n : String) : Bool :=
  (db.findTable n).isSome

/-- get_table_columns: [row[1] for row in PRAGMA table_info(table_name)]. -/
def get_table_columns (db : DB) (table_name : String) : List String :=
  pragmaTableInfoNames db table_name

/-- Column list of the seed INSERT OR IGNORE INTO vehicles statement. -/
def seedVehicleCols : List String :=
  ["vin", "year", "make", "model", "trim", "engine_type", "color",
   "current_mileage"]

/-- The ten sample vehicle tuples of `_seed_sample_data`, in source order. -/
def seedVehicleVals : List (List Value) :=
  [[.text "1HGCM82633A004352", .int 2020, .text "Honda", .text "Civic",
    .text "EX", .text "Gas", .text "Silver", .int 45000],
   [.text "WBAJ71M202A123456", .int 2021, .text "BMW", .text "3 Series",
    .text "330i", .text "Gas", .text "Black", .int 28000],
   [.text "1F1J7J2033A123456", .int 2019, .text "Hyundai", .text "Elantra",
    .text "SEL", .text "Gas", .text "White", .int 62000],
   [.text "1F1J7J2033A123457", .int 2022, .text "Toyota", .text "Camry",
    .text "LE", .text "Gas", .text "Blue", .int 35000],
   [.text "1T3CHJ6033A123456", .int 2018, .text "Tesla", .text "Model 3",
    .text "Long Range", .text "Electric", .text "Red", .int 78000],
   [.text "1N3CHJ3033A123456", .int 2023, .text "Nissan", .text "Altima",
    .text "SV", .text "Gas", .text "Gray", .int 15000],
   [.text "1N5KJ62F25A123456", .int 2020, .text "Ford", .text "F-150",
    .text "XLT", .text "Gas", .text "White", .int 52000],
   [.text "2HGCG225X8A123456", .int 2021, .text "Chevrolet", .text "Malibu",
    .text "LT", .text "Gas", .text "Black", .int 41000],
   [.text "WDCV21M423A123456", .int 2022, .text "Mercedes-Benz",
    .text "C-Class", .text "C300", .text "Gas", .text "Silver", .int 33000],
   [.text "5YFBURHE5HP123456", .int 2019, .text "Toyota", .text "Corolla",
    .text "SE", .text "Gas", .text "Blue", .int 55000]]

/-- Column list of the seed INSERT OR IGNORE INTO maintenance_intervals. -/
def seedMaintenanceCols : List String :=
  ["vin", "service_type", "interval_miles", "interval_months",
   "last_performed_mileage", "last_performed_date"]

/-- The eight sample maintenance tuples of `_seed_sample_data`. -/
def seedMaintenanceVals : List (List Value) :=
  [[.text "1HGCM82633A004352", .text "Oil Change", .int 5000, .int 6,
    .int 42000, .text "2024-08-15"],
   [.text "1HGCM82633A004352", .text "Tire Rotation", .int 7500, .int 6,
    .int 40000, .text "2024-07-01"],
   [.text "1HGCM82633A004352", .text "Brake Inspection", .int 15000, .int 12,
    .int 40000, .text "2024-06-01"],
   [.text "1HGCM82633A004352", .text "Air Filter", .int 15000, .int 12,
    .int 35000, .text "2024-03-01"],
   [.text "WBAJ71M202A123456", .text "Oil Change", .int 7500, .int 12,
    .int 24000, .text "2024-10-01"],
   [.text "WBAJ71M202A123456", .text "Brake Inspection", .int 20000, .int 24,
    .int 20000, .text "2024-05-01"],
   [.text "1F1J7J2033A123456", .text "Oil Change", .int 5000, .int 6,
    .int 58000, .text "2024-09-01"],
   [.text "1F1J7J2033A123456", .text "Transmission Fluid", .int 30000,
    .int 36, .int 35000, .text "2023-06-01"]]

/-- Column list of the seed INSERT OR IGNORE INTO repairs statement. -/
def seedRepairCols : List String :=
  ["vin", "service", "cost", "mileage", "date"]

/-- The five sample repair tuples of `_seed_sample_data`; the REAL costs
45.99, 289.00, 25.00, 89.99, 185.00 are written as exact rationals. -/
def seedRepairVals : List (List Value) :=
  [[.text "1HGCM82633A004352", .text "Oil Change", .real (mkRat 4599 100),
    .int 42000, .text "2024-08-15"],
   [.text "1HGCM82633A004352", .text "Brake Pads Replacement",
    .real (mkRat 28900 100), .int 40000, .text "2024-06-01"],
   [.text "1HGCM82633A004352", .text "Tire Rotation", .real (mkRat 2500 100),
    .int 40000, .text "2024-07-01"],
   [.text "WBAJ71M202A123456", .text "Oil Change", .real (mkRat 8999 100),
    .int 24000, .text "2024-10-01"],
   [.text "1F1J7J2033A123456", .text "Battery Replacement",
    .real (mkRat 18500 100), .int 55000, .text "2024-04-15"]]

/-- Run a list of INSERT OR IGNORE statements into one table, one value
tuple per statement, zipped with the statement's column list. -/
def insertAllOrIgnore (db : DB) (now : Value) (tname : String)
    (cols : List String) (vals : List (List Value)) : Except String DB :=
  vals.foldlM
    (fun d v => (insertRow d now tname (cols.zip v) true).map Prod.fst) db

/-- _seed_sample_data: guarded by SELECT COUNT(*) FROM vehicles — if the
vehicles table already has at least one row the function returns without
touching the store; otherwise it runs the three INSERT OR IGNORE batches
(vehicles, maintenance_intervals, repairs) and commits. -/
def seed_sample_data (db : DB) (now : Value) : Except String DB :=
  match db.findTable "vehicles" with
  | none => .error "no such table: vehicles"
  | some t =>
    if t.rows.length > 0 then .ok db
    else do
      let db2 ← insertAllOrIgnore db now "vehicles" seedVehicleCols
        seedVehicleVals
      let db3 ← insertAllOrIgnore db2 now "maintenance_intervals"
        seedMaintenanceCols seedMaintenanceVals
      let db4 ← insertAllOrIgnore db3 now "repairs" seedRepairCols
        seedRepairVals
      .ok db4

/-- _create_tables_inline: executes the schema script (eight CREATE TABLE IF
NOT EXISTS statements), commits, then seeds the sample data on the same
connection; any error is logged and re-raised, and the connection is closed
on every path. -/
def create_tables_inline (db : DB) (now : Value) : Except String DB :=
  seed_sample_data (runSchemaScript db) now

/-- State visible to `ensure_initialized`: whether the store file exists on
disk, and the store's contents. -/
structure AppState where
  fileExists : Bool
  db : DB
deriving DecidableEq

/-- ensure_initialized: if the store file is absent (checked first, with
Python `or` short-circuit) or the vehicles table is absent, run
`_create_tables_inline` (which creates the file via sqlite3.connect and
always seeds); otherwise do nothing.  Returns True in the source. -/
def ensure_initialized (s : AppState) (now : Value) : Except String AppState :=
  if !s.fileExists || !(table_exists s.db "vehicles") then
    (create_tables_inline s.db now).map (fun d => ⟨true, d⟩)
  else
    .ok s

/-- Observation helper (not part of the source): number of rows of table
`tname` satisfying `pred`; 0 when the table is absent. -/
def countWhere (db : DB) (tname : String) (pred : Row → Bool) : Nat :=
  match db.findTable tname with
  | none => 0
  | some t => (t.rows.filter pred).length

/-- Observation helper: total row count of a table, 0 when absent. -/
def rowCount (db : DB) (tname : String) : Nat :=
  countWhere db tname (fun _ => true)

/-- The semantic predicate denoted by the WHERE fragment vin = ? bound to a
concrete VIN parameter. -/
def vinIs (v : String) : Row → Bool :=
  fun r => lookupCol r "vin" == some (.text v)

/-- A Python exception, identified by its type and message.  The scope
managers must propagate the original exception type and message unchanged. -/
structure Exc where
  ty : String
  msg : String
deriving DecidableEq

/-- An operation attempted on the connection by a scope manager, recording
whether the call returned normally (`ok = true`) or raised. -/
inductive Ev where
  | beginTx : Bool → Ev
  | commit : Bool → Ev
  | rollback : Bool → Ev
  | close : Bool → Ev
deriving DecidableEq

/-- Failure behaviour of the environment for one scope invocation: for each
connection primitive, `none` means the call succeeds and `some e` means the
call raises `e`.  The unit of work itself is a separate parameter. -/
structure Faults where
  openF : Option Exc
  beginF : Option Exc
  commitF : Option Exc
  rollbackF : Option Exc
  closeF : Option Exc
deriving DecidableEq

/-- Trace of one scope invocation: connection operations attempted in order,
exceptions passed to logger.error, and the value returned or exception
propagated to the caller. -/
structure ScopeResult (α : Type) where
  events : List Ev
  logged : List Exc
  outcome : Except Exc α

/-- The shared `except Exception as e: ... raise` / `finally:` tail of both
context managers, applied to the outcome and events of the try-block body
(run with an open connection, so the `if conn:` guards are taken): on error,
conn.rollback() (which may itself raise, replacing the in-flight exception
and skipping the log and re-raise), then logger.error, then re-raise; in all
cases conn.close() in the finally block, whose own failure would replace the
in-flight outcome. -/
def settle (f : Faults) (tryRes : Except Exc α) (evs : List Ev) :
    ScopeResult α :=
  let afterExcept : Except Exc α × List Ev × List Exc :=
    match tryRes with
    | .ok a => (.ok a, evs, [])
    | .error e =>
      match f.rollbackF with
      | some e2 => (.error e2, evs ++ [.rollback false], [])
      | none => (.error e, evs ++ [.rollback true], [e])
  match f.closeF with
  | some e3 => ⟨afterExcept.2.1 ++ [.close false], afterExcept.2.2, .error e3⟩
  | none => ⟨afterExcept.2.1 ++ [.close true], afterExcept.2.2, afterExcept.1⟩

/-- The auto-commit context manager `connection()`: open (a failure here is
caught, logged and re-raised with no connection operations, since conn is
still None), yield to the unit of work, commit on normal return, and settle
as above. -/
def connection (f : Faults) (body : Except Exc α) : ScopeResult α :=
  match f.openF with
  | some e => ⟨[], [e], .error e⟩
  | none =>
    let tryRes : Except Exc α × List Ev :=
      match body with
      | .error e => (.error e, [])
      | .ok a =>
        match f.commitF with
        | some e => (.error e, [.commit false])
        | none => (.ok a, [.commit true])
    settle f tryRes.1 tryRes.2

/-- The explicit-transaction context manager `transaction()`: identical to
`connection()` except that conn.execute("BEGIN TRANSACTION") runs inside the
try block before the unit of work. -/
def transaction (f : Faults) (body : Except Exc α) : ScopeResult α :=
  match f.openF with
  | some e => ⟨[], [e], .error e⟩
  | none =>
    let tryRes : Except Exc α × List Ev :=
      match f.beginF with
      | some e => (.error e, [.beginTx false])
      | none =>
        match body with
        | .error e => (.error e, [.beginTx true])
        | .ok a =>
          match f.commitF with
          | some e => (.error e, [.beginTx true, .commit false])
          | none => (.ok a, [.beginTx true, .commit true])
    settle f tryRes.1 tryRes.2

/-- Either scope, selected by a flag (true = explicit-transaction scope). -/
def runScope (explicit : Bool) (f : Faults) (body : Except Exc α) :
    ScopeResult α :=
  if explicit then transaction f body else connection f body

/-- Number of commit calls that returned normally (the commit took effect). -/
def commitEffects (evs : List Ev) : Nat :=
  (evs.filter (fun e => e == .commit true)).length

/-- Number of rollback calls that returned normally. -/
def rollbackEffects (evs : List Ev) : Nat :=
  (evs.filter (fun e => e == .rollback true)).length

/-- Number of close calls attempted (successful or not). -/
def closeAttempts (evs : List Ev) : Nat :=
  (evs.filter (fun e =>
    match e with
    | .close _ => true
    | _ => false)).length

/-- Projection of a CRUD executor result: the returned Python value. -/
def resultVal (r : Except String (DB × PyResult)) : Option PyResult :=
  match r with
  | .ok p => some p.2
  | .error _ => none

/-- Projection of a CRUD executor result: the store afterwards. -/
def resultDb (r : Except String (DB × PyResult)) : Option DB :=
  match r with
  | .ok p => some p.1
  | .error _ => none

/-- A sample value of datetime(now), for concrete executions. -/
def now0 : Value := .text "2026-10-12 00:00:00"

/-- VIN of the first sample vehicle; the seed gives it three repairs. -/
def demoVin : String := "1HGCM82633A004352"

/-- The store right after the eight CREATE statements, before any seeding. -/
def dbSchema : DB := runSchemaScript ⟨[]⟩

/-- The store produced by ensure_initialized on a fresh start (no store
file, empty store): schema created and demo data seeded. -/
def dbInit : DB :=
  match ensure_initialized ⟨false, ⟨[]⟩⟩ now0 with
  | .ok s => s.db
  | .error _ => ⟨[]⟩

/-- The store after deleting the first sample vehicle from the initialized
store. -/
def dbAfterDelete : DB :=
  match execute_delete dbInit "vehicles" (vinIs demoVin) with
  | .ok p => p.1
  | .error _ => ⟨[]⟩

/-- The value execute_delete returns for that deletion (None on error). -/
def deleteOutcome : Option PyResult :=
  resultVal (execute_delete dbInit "vehicles" (vinIs demoVin))

/-! Shared lemmas about the store model. -/

/-- Zipping the key list with the value list of an association list
reconstructs it: columns and placeholders align positionally. -/
theorem zip_fst_snd {α β : Type} (l : List (α × β)) :
    (l.map Prod.fst).zip (l.map Prod.snd) = l := by
  induction l with
  | nil => rfl
  | cons p ps ih => simpa using ih

/-- One "?" placeholder is generated per data entry. -/
theorem map_question_eq_replicate {α : Type} (l : List α) :
    l.map (fun _ => "?") = List.replicate l.length "?" := by
  induction l with
  | nil => rfl
  | cons a as ih => simpa [List.replicate] using ih

/-- Mapping a guarded rewrite over rows none of which satisfy the guard is
the identity. -/
theorem map_ite_id {l : List Row} {pred : Row → Bool} (g : Row → Row)
    (h : ∀ r ∈ l, pred r = false) :
    l.map (fun r => if pred r then g r else r) = l := by
  induction l with
  | nil => rfl
  | cons a as ih =>
    simp only [List.map_cons, h a (List.mem_cons_self a as)]
    simp only [Bool.false_eq_true, if_false, List.cons.injEq, true_and]
    exact ih (fun r hr => h r (List.mem_cons_of_mem a hr))

/-- Filtering with an everywhere-false predicate yields no rows. -/
theorem filter_eq_nil_of_all_false {l : List Row} {pred : Row → Bool}
    (h : ∀ r ∈ l, pred r = false) : l.filter pred = [] := by
  induction l with
  | nil => rfl
  | cons a as ih =>
    simp only [List.filter_cons, h a (List.mem_cons_self a as)]
    simp only [Bool.false_eq_true, if_false]
    exact ih (fun r hr => h r (List.mem_cons_of_mem a hr))

/-- Replacing a table's state keeps the key sequence of the store. -/
theorem keys_setTableList (l : List (String × TableState)) (n : String)
    (t : TableState) : (setTableList l n t).map Prod.fst = l.map Prod.fst := by
  induction l with
  | nil => rfl
  | cons p ps ih =>
    by_cases hp : (p.1 == n) = true
    · simp [setTableList, hp]
    · simp only [setTableList, Bool.not_eq_true] at *
      simp [hp, ih]

/-- After replacing table `n`'s state, looking `n` up finds the new state
(provided the table was present). -/
theorem findTable_setTableList_self {l : List (String × TableState)}
    {n : String} {t0 : TableState}
    (h : DB.findTable ⟨l⟩ n = some t0) (t : TableState) :
    DB.findTable ⟨setTableList l n t⟩ n = some t := by
  induction l with
  | nil => simp [DB.findTable, List.find?] at h
  | cons p ps ih =>
    by_cases hp : (p.1 == n) = true
    · simp [setTableList, hp, DB.findTable, List.find?]
    · simp only [Bool.not_eq_true] at hp
      simp only [DB.findTable, List.find?, hp] at h
      simp only [setTableList, hp, Bool.false_eq_true, if_false]
      simpa [DB.findTable, List.find?, hp] using ih (by simpa [DB.findTable] using h)

/-- Replacing table `n`'s state does not affect lookups of other tables. -/
theorem findTable_setTableList_other {l : List (String × TableState)}
    {n n' : String} (hne : (n' == n) = false) (t : TableState) :
    DB.findTable ⟨setTableList l n t⟩ n' = DB.findTable ⟨l⟩ n' := by
  induction l with
  | nil => rfl
  | cons p ps ih =>
    by_cases hp : (p.1 == n) = true
    · have hpn : p.1 = n := by simpa using hp
      have : (p.1 == n') = false := by
        subst hpn
        cases h2 : (p.1 == n') with
        | false => rfl
        | true =>
          have : p.1 = n' := by simpa using h2
          subst this
          simp at hne
      simp [setTableList, hp, DB.findTable, List.find?, this]
    · simp only [Bool.not_eq_true] at hp
      simp only [setTableList, hp, Bool.false_eq_true, if_false]
      cases h2 : (p.1 == n') with
      | true => simp [DB.findTable, List.find?, h2]
      | false =>
        simpa [DB.findTable, List.find?, h2] using ih

/-- Presence of a table is the existence of its key in the store. -/
theorem isSome_findTable (l : List (String × TableState)) (n : String) :
    (DB.findTable ⟨l⟩ n).isSome = l.any (fun p => p.1 == n) := by
  induction l with
  | nil => rfl
  | cons p ps ih =>
    cases hp : (p.1 == n) with
    | true => simp [DB.findTable, List.find?, hp]
    | false => simpa [DB.findTable, List.find?, hp] using ih

/-- Presence of a table only depends on the store's key sequence. -/
theorem isSome_findTable_of_keys {db db2 : DB}
    (h : db2.tables.map Prod.fst = db.tables.map Prod.fst) (n : String) :
    (db2.findTable n).isSome = (db.findTable n).isSome := by
  have h2 : ∀ (l : List (String × TableState)),
      l.any (fun p => p.1 == n) = (l.map Prod.fst).any (fun m => m == n) := by
    intro l
    induction l with
    | nil => rfl
    | cons p ps ih => simp [ih]
  calc (db2.findTable n).isSome
      = db2.tables.any (fun p => p.1 == n) := by
        cases db2 with | mk l => exact isSome_findTable l n
    _ = (db2.tables.map Prod.fst).any (fun m => m == n) := h2 _
    _ = (db.tables.map Prod.fst).any (fun m => m == n) := by rw [h]
    _ = db.tables.any (fun p => p.1 == n) := (h2 _).symm
    _ = (db.findTable n).isSome := by
        cases db with | mk l => exact (isSome_findTable l n).symm

/-- A successful INSERT does not change the store's key sequence. -/
theorem insertRow_keys {db db2 : DB} {now : Value} {tn : String}
    {prov : List (String × Value)} {ig : Bool} {rid : Nat}
    (h : insertRow db now tn prov ig = .ok (db2, rid)) :
    db2.tables.map Prod.fst = db.tables.map Prod.fst := by
  unfold insertRow at h
  split at h
  · split at h
    · cases h
    · split at h
      · split at h
        · cases h
          rfl
        · cases h
      · cases h
        exact keys_setTableList _ _ _
  · cases h

/-- A successful INSERT only ever appends rows: every table present before
is present after, with its previous rows as a prefix. -/
theorem insertRow_extend {db db2 : DB} {now : Value} {tn : String}
    {prov : List (String × Value)} {ig : Bool} {rid : Nat}
    (h : insertRow db now tn prov ig = .ok (db2, rid)) (n : String)
    (t0 : TableState) (ht : db.findTable n = some t0) :
    ∃ t2 ext, db2.findTable n = some t2 ∧ t2.rows = t0.rows ++ ext := by
  unfold insertRow at h
  split at h
  case h_1 td t hs hf =>
    split at h
    · cases h
    · split at h
      · split at h
        · cases h
          exact ⟨t0, [], ht, by simp⟩
        · cases h
      · cases h
        by_cases hn : (n == tn) = true
        · have hn2 : n = tn := by simpa using hn
          subst hn2
          rw [ht] at hf
          cases hf
          refine ⟨⟨t0.rows ++ [buildRow td prov now t0.nextId], t0.nextId + 1⟩,
            [buildRow td prov now t0.nextId], ?_, rfl⟩
          cases db with | mk l =>
          exact findTable_setTableList_self ht _
        · have hn2 : (n == tn) = false := by simpa using hn
          cases db with | mk l =>
          exact ⟨t0, [], by
            simpa [DB.setTable] using
              (findTable_setTableList_other hn2 _).trans ht, by simp⟩
  · cases h

/-- A successful INSERT OR IGNORE batch does not change the key sequence. -/
theorem insertAllOrIgnore_keys {vals : List (List Value)} :
    ∀ {db db2 : DB} {now : Value} {tn : String} {cols : List String},
    insertAllOrIgnore db now tn cols vals = .ok db2 →
    db2.tables.map Prod.fst = db.tables.map Prod.fst := by
  induction vals with
  | nil =>
    intro db db2 now tn cols h
    cases h
    rfl
  | cons v vs ih =>
    intro db db2 now tn cols h
    simp only [insertAllOrIgnore, List.foldlM_cons] at h
    cases hi : insertRow db now tn (cols.zip v) true with
    | error e =>
      rw [hi] at h
      simp [Except.map, Bind.bind, Except.bind] at h
    | ok p =>
      obtain ⟨dbm, rid2⟩ := p
      rw [hi] at h
      simp only [Except.map, Bind.bind, Except.bind] at h
      have h2 : insertAllOrIgnore dbm now tn cols vs = .ok db2 := h
      exact (ih h2).trans (insertRow_keys hi)

/-- A successful INSERT OR IGNORE batch only ever appends rows. -/
theorem insertAllOrIgnore_extend {vals : List (List Value)} :
    ∀ {db db2 : DB} {now : Value} {tn : String} {cols : List String},
    insertAllOrIgnore db now tn cols vals = .ok db2 →
    ∀ (n : String) (t0 : TableState), db.findTable n = some t0 →
    ∃ t2 ext, db2.findTable n = some t2 ∧ t2.rows = t0.rows ++ ext := by
  induction vals with
  | nil =>
    intro db db2 now tn cols h n t0 ht
    cases h
    exact ⟨t0, [], ht, by simp⟩
  | cons v vs ih =>
    intro db db2 now tn cols h n t0 ht
    simp only [insertAllOrIgnore, List.foldlM_cons] at h
    cases hi : insertRow db now tn (cols.zip v) true with
    | error e =>
      rw [hi] at h
      simp [Except.map, Bind.bind, Except.bind] at h
    | ok p =>
      obtain ⟨dbm, rid2⟩ := p
      rw [hi] at h
      simp only [Except.map, Bind.bind, Except.bind] at h
      have h2 : insertAllOrIgnore dbm now tn cols vs = .ok db2 := h
      obtain ⟨t1, ext1, ht1, he1⟩ := insertRow_extend hi n t0 ht
      obtain ⟨t2, ext2, ht2, he2⟩ := ih h2 n t1 ht1
      exact ⟨t2, ext1 ++ ext2, ht2, by rw [he2, he1, List.append_assoc]⟩

/-- After CREATE TABLE IF NOT EXISTS, the named table is present. -/
theorem createTableIfNotExists_present (db : DB) (n : String) :
    ((createTableIfNotExists db n).findTable n).isSome = true := by
  unfold createTableIfNotExists
  cases hf : db.findTable n with
  | some t => simp [hf]
  | none =>
    cases db with | mk l =>
    rw [isSome_findTable]
    simp

/-- CREATE TABLE IF NOT EXISTS keeps every already-present table present. -/
theorem createTableIfNotExists_mono {db : DB} {m : String}
    (h : (db.findTable m).isSome = true) (n : String) :
    ((createTableIfNotExists db n).findTable m).isSome = true := by
  unfold createTableIfNotExists
  cases hf : db.findTable n with
  | some t => exact h
  | none =>
    cases db with | mk l =>
    rw [isSome_findTable]
    rw [isSome_findTable] at h
    simp only [List.any_append, Bool.or_eq_true]
    exact Or.inl h

/-- CREATE TABLE IF NOT EXISTS is the identity on a store that already has
the table. -/
theorem createTableIfNotExists_id {db : DB} {n : String}
    (h : (db.findTable n).isSome = true) :
    createTableIfNotExists db n = db := by
  unfold createTableIfNotExists
  cases hf : db.findTable n with
  | some t => rfl
  | none => rw [hf] at h; cases h

/-- After folding the script's CREATE statements, every scripted table (and
every table that was already present) is present. -/
theorem foldl_create_present :
    ∀ (tds : List TableDef) (db : DB) (n : String),
    (n ∈ tds.map TableDef.name ∨ (db.findTable n).isSome = true) →
    (((tds.foldl (fun d td => createTableIfNotExists d td.name) db)).findTable
      n).isSome = true := by
  intro tds
  induction tds with
  | nil =>
    intro db n h
    rcases h with h | h
    · simp at h
    · exact h
  | cons td tds ih =>
    intro db n h
    simp only [List.foldl_cons]
    rcases h with h | h
    · simp only [List.map_cons, List.mem_cons] at h
      rcases h with h1 | h1
      · subst h1
        exact ih _ _ (Or.inr (createTableIfNotExists_present db td.name))
      · exact ih _ _ (Or.inl h1)
    · exact ih _ _ (Or.inr (createTableIfNotExists_mono h td.name))

/-- The schema script is the identity on a store that already has all the
scripted tables. -/
theorem foldl_create_id :
    ∀ (tds : List TableDef) (db : DB),
    (∀ td ∈ tds, ((db.findTable td.name).isSome = true)) →
    tds.foldl (fun d td => createTableIfNotExists d td.name) db = db := by
  intro tds
  induction tds with
  | nil => intro db _; rfl
  | cons td tds ih =>
    intro db h
    simp only [List.foldl_cons]
    rw [createTableIfNotExists_id (h td (List.mem_cons_self td tds))]
    exact ih db (fun td2 h2 => h td2 (List.mem_cons_of_mem td h2))

/-- runSchemaScript makes all eight scripted tables present. -/
theorem runSchemaScript_present (db : DB) (n : String)
    (h : n ∈ schemaTableNames) :
    (((runSchemaScript db)).findTable n).isSome = true :=
  foldl_create_present schemaTableDefs db n (Or.inl h)

/-- runSchemaScript keeps every present table present. -/
theorem runSchemaScript_mono {db : DB} {n : String}
    (h : (db.findTable n).isSome = true) :
    (((runSchemaScript db)).findTable n).isSome = true :=
  foldl_create_present schemaTableDefs db n (Or.inr h)

/-- runSchemaScript is the identity once all eight tables exist. -/
theorem runSchemaScript_id {db : DB}
    (h : ∀ td ∈ schemaTableDefs, ((db.findTable td.name).isSome = true)) :
    runSchemaScript db = db :=
  foldl_create_id schemaTableDefs db h

/-- Unfolding one statement of an INSERT OR IGNORE batch. -/
theorem insertAllOrIgnore_cons {db : DB} {now : Value} {tn : String}
    {cols : List String} {v : List Value} {vs : List (List Value)} :
    insertAllOrIgnore db now tn cols (v :: vs) =
      (insertRow db now tn (cols.zip v) true).map Prod.fst >>= fun d =>
        insertAllOrIgnore d now tn cols vs := rfl

/-- Inserting the first sample vehicle into an empty vehicles table
succeeds (no constraint fires) and stores exactly one row. -/
theorem insertRow_first_vehicle {db : DB} {now : Value} {k : Nat}
    (hf : db.findTable "vehicles" = some ⟨[], k⟩) :
    insertRow db now "vehicles"
      (seedVehicleCols.zip [.text "1HGCM82633A004352", .int 2020, .text "Honda",
        .text "Civic", .text "EX", .text "Gas", .text "Silver", .int 45000]) true
    = .ok (db.setTable "vehicles"
        ⟨[buildRow vehiclesTd
            (seedVehicleCols.zip [.text "1HGCM82633A004352", .int 2020,
              .text "Honda", .text "Civic", .text "EX", .text "Gas",
              .text "Silver", .int 45000]) now k], k + 1⟩, k) := by
  unfold insertRow
  rw [hf]
  rfl

/-- The sample-vehicle batch, run against an empty vehicles table, leaves
the vehicles table non-empty. -/
theorem insertAll_vehicles_from_empty {db dbA : DB} {now : Value} {k : Nat}
    (hf : db.findTable "vehicles" = some ⟨[], k⟩)
    (hA : insertAllOrIgnore db now "vehicles" seedVehicleCols seedVehicleVals
      = .ok dbA) :
    ∃ tA, dbA.findTable "vehicles" = some tA ∧ tA.rows ≠ [] := by
  rw [show seedVehicleVals
      = [Value.text "1HGCM82633A004352", .int 2020, .text "Honda",
         .text "Civic", .text "EX", .text "Gas", .text "Silver", .int 45000]
        :: seedVehicleVals.tail from rfl] at hA
  rw [insertAllOrIgnore_cons, insertRow_first_vehicle hf] at hA
  simp only [Except.map, bind, Except.bind] at hA
  have hset : (db.setTable "vehicles"
      ⟨[buildRow vehiclesTd
          (seedVehicleCols.zip [.text "1HGCM82633A004352", .int 2020,
            .text "Honda", .text "Civic", .text "EX", .text "Gas",
            .text "Silver", .int 45000]) now k], k + 1⟩).findTable "vehicles"
      = some ⟨[buildRow vehiclesTd
          (seedVehicleCols.zip [.text "1HGCM82633A004352", .int 2020,
            .text "Honda", .text "Civic", .text "EX", .text "Gas",
            .text "Silver", .int 45000]) now k], k + 1⟩ := by
    cases db with | mk l =>
    exact findTable_setTableList_self hf _
  obtain ⟨tA, ext, htA, heA⟩ := insertAllOrIgnore_extend hA _ _ hset
  refine ⟨tA, htA, ?_⟩
  rw [heA]
  simp

/-- A successful seeding pass leaves the vehicles table present and
non-empty: either the guard saw existing rows, or the pass inserted the
sample vehicles, the first of which lands in the empty table. -/
theorem seed_vehicles_nonempty {db db2 : DB} {now : Value}
    (h : seed_sample_data db now = .ok db2) :
    ∃ t2, db2.findTable "vehicles" = some t2 ∧ t2.rows ≠ [] := by
  unfold seed_sample_data at h
  cases hf : db.findTable "vehicles" with
  | none => rw [hf] at h; cases h
  | some t =>
    rw [hf] at h
    obtain ⟨rows, k⟩ := t
    by_cases hlen : rows.length > 0
    · simp only [hlen, if_true] at h
      cases h
      exact ⟨⟨rows, k⟩, hf, List.ne_nil_of_length_pos hlen⟩
    · simp only [hlen, if_false] at h
      have hrows : rows = [] := List.eq_nil_of_length_eq_zero (by omega)
      subst hrows
      simp only [bind, Except.bind] at h
      cases hA : insertAllOrIgnore db now "vehicles" seedVehicleCols
          seedVehicleVals with
      | error e => rw [hA] at h; cases h
      | ok dbA =>
        rw [hA] at h
        dsimp only at h
        obtain ⟨tA, htA, hne⟩ := insertAll_vehicles_from_empty hf hA
        cases hB : insertAllOrIgnore dbA now "maintenance_intervals"
            seedMaintenanceCols seedMaintenanceVals with
        | error e => rw [hB] at h; cases h
        | ok dbB =>
          rw [hB] at h
          dsimp only at h
          obtain ⟨tB, extB, htB, heB⟩ := insertAllOrIgnore_extend hB _ _ htA
          cases hC : insertAllOrIgnore dbB now "repairs" seedRepairCols
              seedRepairVals with
          | error e => rw [hC] at h; cases h
          | ok dbC =>
            rw [hC] at h
            dsimp only at h
            cases h
            obtain ⟨tC, extC, htC, heC⟩ := insertAllOrIgnore_extend hC _ _ htB
            refine ⟨tC, htC, ?_⟩
            rw [heC, heB]
            intro hcontra
            rcases List.append_eq_nil.mp hcontra with ⟨h1, _⟩
            rcases List.append_eq_nil.mp h1 with ⟨h2, _⟩
            exact hne h2

/-- A successful seeding pass does not change the store's key sequence. -/
theorem seed_keys {db db2 : DB} {now : Value}
    (h : seed_sample_data db now = .ok db2) :
    db2.tables.map Prod.fst = db.tables.map Prod.fst := by
  unfold seed_sample_data at h
  cases hf : db.findTable "vehicles" with
  | none => rw [hf] at h; cases h
  | some t =>
    rw [hf] at h
    by_cases hlen : t.rows.length > 0
    · simp only [hlen, if_true] at h
      cases h
      rfl
    · simp only [hlen, if_false] at h
      simp only [bind, Except.bind] at h
      cases hA : insertAllOrIgnore db now "vehicles" seedVehicleCols
          seedVehicleVals with
      | error e => rw [hA] at h; cases h
      | ok dbA =>
        rw [hA] at h
        dsimp only at h
        cases hB : insertAllOrIgnore dbA now "maintenance_intervals"
            seedMaintenanceCols seedMaintenanceVals with
        | error e => rw [hB] at h; cases h
        | ok dbB =>
          rw [hB] at h
          dsimp only at h
          cases hC : insertAllOrIgnore dbB now "repairs" seedRepairCols
              seedRepairVals with
          | error e => rw [hC] at h; cases h
          | ok dbC =>
            rw [hC] at h
            dsimp only at h
            cases h
            exact ((insertAllOrIgnore_keys hC).trans
              (insertAllOrIgnore_keys hB)).trans (insertAllOrIgnore_keys hA)

/-- Replacing a table's state with the very state it already has is the
identity on the store. -/
theorem setTableList_id {l : List (String × TableState)} {n : String}
    {t0 : TableState} (h : DB.findTable ⟨l⟩ n = some t0) :
    setTableList l n t0 = l := by
  induction l with
  | nil => rfl
  | cons p ps ih =>
    by_cases hp : (p.1 == n) = true
    · simp only [DB.findTable, List.find?, hp] at h
      cases h
      simp [setTableList, hp]
    · simp only [Bool.not_eq_true] at hp
      simp only [DB.findTable, List.find?, hp] at h
      simp only [setTableList, hp, Bool.false_eq_true, if_false,
        List.cons.injEq, true_and]
      exact ih (by simpa [DB.findTable] using h)

/-- A schema-plus-seed pass makes all scripted tables present. -/
theorem create_tables_inline_present {db db2 : DB} {now : Value}
    (h : create_tables_inline db now = .ok db2) (n : String)
    (hn : n ∈ schemaTableNames) : (db2.findTable n).isSome = true := by
  unfold create_tables_inline at h
  rw [isSome_findTable_of_keys (seed_keys h)]
  exact runSchemaScript_present db n hn

/-- A schema-plus-seed pass leaves the vehicles table non-empty. -/
theorem create_tables_inline_vehicles_nonempty {db db2 : DB} {now : Value}
    (h : create_tables_inline db now = .ok db2) :
    ∃ t2, db2.findTable "vehicles" = some t2 ∧ t2.rows ≠ [] :=
  seed_vehicles_nonempty h

/-- The seeding guard: a vehicles table with at least one row makes the
whole pass a no-op. -/
theorem seed_skip_of_nonempty {db : DB} {now : Value} {t : TableState}
    (hf : db.findTable "vehicles" = some t) (hne : t.rows ≠ []) :
    seed_sample_data db now = .ok db := by
  unfold seed_sample_data
  rw [hf]
  simp [List.length_pos.mpr hne]

/-- A second schema-plus-seed pass returns the store unchanged. -/
theorem create_tables_inline_idem {db db2 : DB} {now now2 : Value}
    (h : create_tables_inline db now = .ok db2) :
    create_tables_inline db2 now2 = .ok db2 := by
  unfold create_tables_inline
  rw [runSchemaScript_id (fun td htd =>
    create_tables_inline_present h td.name
      (List.mem_map_of_mem TableDef.name htd))]
  obtain ⟨t2, ht2, hne⟩ := create_tables_inline_vehicles_nonempty h
  exact seed_skip_of_nonempty ht2 hne

/-- An UPDATE whose predicate matches no row modifies nothing and trips no
constraint check. -/
theorem updateViolation_of_no_match {db : DB} {td : TableDef}
    {oldRows newRows : List Row} {pred : Row → Bool}
    (h : ∀ r ∈ oldRows, pred r = false) :
    updateViolation db td oldRows newRows pred = false := by
  unfold updateViolation
  rw [List.any_eq_false]
  intro i _
  cases hg : oldRows.get? i with
  | none => simp
  | some r0 =>
    cases hg2 : newRows.get? i with
    | none => simp
    | some r1 => simp [h r0 (List.get?_mem hg)]

/-- C4: execute_query dispatches on whether the trimmed, case-normalized
statement starts with SELECT.  For a SELECT statement it returns the single
converted first row, or None when no row matches, when fetch_one is set,
and the list of converted rows otherwise; for every non-SELECT statement it
returns the affected-row count. -/
theorem C4_query_dispatch (q : String) (f1 fa : Bool) (rows : List Row)
    (rc : Int) :
    (isSelect q = true → f1 = true →
      execute_query q f1 fa rows rc
        = (match rows.head? with
           | some r => .pyDict r
           | none => .pyNone))
    ∧ (isSelect q = true → f1 = false →
      execute_query q f1 fa rows rc = .pyList (rows_to_list rows))
    ∧ (isSelect q = false → execute_query q f1 fa rows rc = .pyInt rc) := by
  refine ⟨fun hs hf1 => ?_, fun hs hf1 => ?_, fun hs => ?_⟩
  · cases rows <;> simp [execute_query, hs, hf1, row_to_dict]
  · simp [execute_query, hs, hf1]
  · simp [execute_query, hs]

/-- C4 witness: a padded mixed-case SELECT takes the row-list branch; a
DELETE statement returns the rowcount. -/
theorem C4_query_dispatch_witness :
    execute_query "  sElEcT 1" false true [] 7 = .pyList []
    ∧ execute_query "DELETE FROM vehicles WHERE vin = ?" false true [] 7
      = .pyInt 7 :=
  ⟨(C4_query_dispatch "  sElEcT 1" false true [] 7).2.1 rfl rfl,
   (C4_query_dispatch "DELETE FROM vehicles WHERE vin = ?" false true
     [] 7).2.2 rfl⟩

/-- C9: in the fetch-all case of a SELECT, execute_query returns a list of
converted rows — the empty list when no rows match — and None is only ever
returned in the fetch-one case (with an empty result). -/
theorem C9_fetchall_never_none (q : String) (f1 fa : Bool) (rows : List Row)
    (rc : Int) :
    (isSelect q = true →
      execute_query q false fa rows rc = .pyList (rows_to_list rows))
    ∧ (isSelect q = true → rows = [] →
      execute_query q false fa rows rc = .pyList [])
    ∧ (execute_query q f1 fa rows rc = .pyNone → f1 = true ∧ rows = []) := by
  refine ⟨fun hs => ?_, fun hs hr => ?_, fun h => ?_⟩
  · simp [execute_query, hs]
  · simp [execute_query, hs, hr, rows_to_list]
  · by_cases hs : isSelect q = true
    · cases f1 with
      | false => simp [execute_query, hs] at h
      | true =>
        cases rows with
        | nil => exact ⟨rfl, rfl⟩
        | cons r rs => simp [execute_query, hs, row_to_dict] at h
    · simp only [Bool.not_eq_true] at hs
      simp [execute_query, hs] at h

/-- C9 witness: an empty SELECT result under fetch-all is the empty list,
not None. -/
theorem C9_fetchall_never_none_witness :
    execute_query "SELECT vin FROM vehicles" false true [] 0 = .pyList [] :=
  (C9_fetchall_never_none "SELECT vin FROM vehicles" false true [] 0).2.1
    rfl rfl

/-- C10: get_table_columns returns the empty list (and raises no error) for
a table name that names no existing table, and the declared column names in
declaration order for an existing table. -/
theorem C10_columns (db : DB) (n : String) :
    (db.findTable n = none → get_table_columns db n = [])
    ∧ (∀ td, schemaOf n = some td → (db.findTable n).isSome = true →
        get_table_columns db n = td.cols.map ColDef.name) := by
  refine ⟨fun h => ?_, fun td hs hp => ?_⟩
  · simp [get_table_columns, pragmaTableInfoNames, h]
  · cases hf : db.findTable n with
    | none => rw [hf] at hp; cases hp
    | some t => simp [get_table_columns, pragmaTableInfoNames, hf, hs]

/-- C10 witness: on the freshly created schema, the vehicles column list
comes back in declaration order, and a missing table yields []. -/
theorem C10_columns_witness :
    get_table_columns dbSchema "vehicles"
      = ["vin", "year", "make", "model", "trim", "engine_type", "color",
         "purchase_date", "purchase_price", "current_mileage", "user_id",
         "created_at", "updated_at"]
    ∧ get_table_columns dbSchema "no_such_table" = [] :=
  ⟨((C10_columns dbSchema "vehicles").2 vehiclesTd rfl rfl).trans (by decide),
   (C10_columns dbSchema "no_such_table").1 rfl⟩

/-- C5: for a non-empty field mapping, execute_insert builds an INSERT
whose column list is the mapping's keys and whose placeholders (one per
entry) are bound to the mapping's values, both in the mapping's iteration
order, so that zipping columns with bound parameters recovers the mapping;
it returns the newly assigned row identifier when return_id is true and the
success flag True otherwise. -/
theorem C5_insert_builder (table : String) (data : List (String × Value))
    (hne : data ≠ []) :
    execute_insert_sql table data
      = "INSERT INTO " ++ table ++ " ("
        ++ String.intercalate ", " (data.map Prod.fst) ++ ") VALUES ("
        ++ String.intercalate ", " (List.replicate data.length "?") ++ ")"
    ∧ (data.map Prod.fst).zip (execute_insert_params data) = data
    ∧ (∀ (db db2 : DB) (now : Value) (rid : Nat),
        insertRow db now table data false = .ok (db2, rid) →
        execute_insert db now table data true
          = .ok (db2, .pyInt (Int.ofNat rid))
        ∧ execute_insert db now table data false
          = .ok (db2, .pyBool true)) := by
  refine ⟨?_, zip_fst_snd data, fun db db2 now rid h => ?_⟩
  · simp [execute_insert_sql, map_question_eq_replicate]
  · constructor <;>
      simp [execute_insert, h, bind, Except.bind]

/-- C5 witness: a two-column mapping produces the aligned statement and
parameter tuple, and a concrete insert returns the fresh row id. -/
theorem C5_insert_builder_witness :
    execute_insert_sql "vehicles"
        [("vin", .text "VIN123"), ("year", .int 2020)]
      = "INSERT INTO vehicles (vin, year) VALUES (?, ?)"
    ∧ ([("vin", Value.text "VIN123"), ("year", Value.int 2020)].map
          Prod.fst).zip (execute_insert_params
            [("vin", .text "VIN123"), ("year", .int 2020)])
      = [("vin", .text "VIN123"), ("year", .int 2020)] :=
  ⟨((C5_insert_builder "vehicles"
      [("vin", .text "VIN123"), ("year", .int 2020)] (by decide)).1).trans
      (by decide),
   (C5_insert_builder "vehicles"
      [("vin", .text "VIN123"), ("year", .int 2020)] (by decide)).2.1⟩

/-- C6: execute_update builds SET col = ? per mapped column followed by the
automatic updated_at = datetime(now) assignment, binds the mapping's values
followed by the predicate parameters in exactly that order, and — whenever
the modified rows pass the engine's UPDATE-time constraint checks — returns
the affected-row count; a predicate matching no rows yields count 0 with no
error and the store unchanged. -/
theorem C6_update_builder (table : String) (data : List (String × Value))
    (whereClause : String) (where_params : List Value) (db : DB)
    (now : Value) (td : TableDef) (t : TableState) (pred : Row → Bool)
    (hs : schemaOf table = some td) (hf : db.findTable table = some t)
    (hcols : unknownCol td (data ++ [("updated_at", now)]) = false) :
    execute_update_sql table data whereClause
      = "UPDATE " ++ table ++ " SET "
        ++ String.intercalate ", " (data.map (fun p => p.1 ++ " = ?"))
        ++ ", updated_at = datetime(\x27now\x27) WHERE " ++ whereClause
    ∧ execute_update_params data where_params
      = data.map Prod.snd ++ where_params
    ∧ (updateViolation db td t.rows
         (t.rows.map (fun r =>
           if pred r then setCols r (data ++ [("updated_at", now)]) else r))
         pred = false →
       resultVal (execute_update db now table data pred)
         = some (.pyInt (Int.ofNat (t.rows.filter pred).length)))
    ∧ ((∀ r ∈ t.rows, pred r = false) →
        execute_update db now table data pred = .ok (db, .pyInt 0)) := by
  refine ⟨?_, rfl, fun hv => ?_, fun hall => ?_⟩
  · simp [execute_update_sql, List.map_map]
    rfl
  · simp [execute_update, updateRows, hs, hf, hcols, hv, resultVal, bind,
      Except.bind]
  · have hv : updateViolation db td t.rows
        (t.rows.map (fun r =>
          if pred r then setCols r (data ++ [("updated_at", now)]) else r))
        pred = false := updateViolation_of_no_match hall
    have hmap : t.rows.map
        (fun r => if pred r then
          setCols r (data ++ [("updated_at", now)]) else r) = t.rows :=
      map_ite_id _ hall
    have hfil : t.rows.filter pred = [] := filter_eq_nil_of_all_false hall
    simp only [execute_update, updateRows, hs, hf, hcols, hv,
      Bool.false_eq_true, if_false, hmap, hfil, List.length_nil, bind,
      Except.bind]
    cases db with | mk l =>
    have : setTableList l table ⟨t.rows, t.nextId⟩ = l := setTableList_id hf
    simp [DB.setTable, this, updateViolation_of_no_match hall]

/-- C6 witness: updating vehicles on a fresh schema with a predicate that
matches nothing passes the constraint check, returns 0 and leaves the
store unchanged. -/
theorem C6_update_builder_witness :
    execute_update dbSchema now0 "vehicles" [("current_mileage", .int 50000)]
      (vinIs "VIN123") = .ok (dbSchema, .pyInt 0)
    ∧ resultVal (execute_update dbSchema now0 "vehicles"
        [("current_mileage", .int 50000)] (vinIs "VIN123"))
      = some (.pyInt 0) :=
  ⟨(C6_update_builder "vehicles" [("current_mileage", .int 50000)] "vin = ?"
      [.text "VIN123"] dbSchema now0 vehiclesTd ⟨[], 1⟩ (vinIs "VIN123")
      rfl rfl (by decide)).2.2.2
      (fun r hr => absurd hr (List.not_mem_nil r)),
   (C6_update_builder "vehicles" [("current_mileage", .int 50000)] "vin = ?"
      [.text "VIN123"] dbSchema now0 vehiclesTd ⟨[], 1⟩ (vinIs "VIN123")
      rfl rfl (by decide)).2.2.1 (by decide)⟩

/-- C1 counterexample: with the unit of work raising ValueError "boom" and
conn.rollback() itself raising OperationalError "cannot rollback", the
auto-commit scope propagates the rollback error — not the original
exception — and logs nothing, refuting the unconditional propagation
clause of the claim. -/
theorem C1_counterexample_rollback_masks :
    (connection (α := Unit)
        ⟨none, none, none, some ⟨"OperationalError", "cannot rollback"⟩, none⟩
        (.error ⟨"ValueError", "boom"⟩)).outcome
      = .error ⟨"OperationalError", "cannot rollback"⟩
    ∧ (connection (α := Unit)
        ⟨none, none, none, some ⟨"OperationalError", "cannot rollback"⟩, none⟩
        (.error ⟨"ValueError", "boom"⟩)).logged = []
    ∧ (⟨"OperationalError", "cannot rollback"⟩ : Exc)
        ≠ ⟨"ValueError", "boom"⟩ :=
  ⟨rfl, rfl, by decide⟩

/-- C1 (amended): over both scopes, for every unit of work and every
combination of primitive failures: at most one of commit / rollback takes
effect; whenever the connection was opened, close is attempted exactly once
(including when commit or rollback fails); when the unit of work raises and
the subsequent rollback succeeds, the original exception is logged, and it
is also propagated unchanged provided close succeeds; when rollback itself
raises, the rollback error propagates and the original is not logged; and
when close raises, the close error is what reaches the caller (after the
original, if any, was logged). -/
theorem C1_scope_discipline {α : Type} (explicit : Bool) (f : Faults)
    (body : Except Exc α) :
    commitEffects (runScope explicit f body).events
      + rollbackEffects (runScope explicit f body).events ≤ 1
    ∧ (f.openF = none → closeAttempts (runScope explicit f body).events = 1)
    ∧ (∀ e : Exc, f.openF = none → f.beginF = none → body = .error e →
        f.rollbackF = none → f.closeF = none →
        (runScope explicit f body).outcome = .error e
        ∧ (runScope explicit f body).logged = [e])
    ∧ (∀ e : Exc, f.openF = none → f.beginF = none → body = .error e →
        f.rollbackF = none → (runScope explicit f body).logged = [e])
    ∧ (∀ e e2 : Exc, f.openF = none → f.beginF = none → body = .error e →
        f.rollbackF = some e2 → f.closeF = none →
        (runScope explicit f body).outcome = .error e2
        ∧ (runScope explicit f body).logged = [])
    ∧ (∀ e3 : Exc, f.openF = none → f.closeF = some e3 →
        (runScope explicit f body).outcome = .error e3) := by
  obtain ⟨o, bg, c, r, cl⟩ := f
  cases explicit <;> cases o <;> cases bg <;> cases body <;> cases c <;>
    cases r <;> cases cl <;>
    simp [runScope, connection, transaction, settle, commitEffects,
      rollbackEffects, closeAttempts]

/-- C1 witness: with no primitive failures a raising unit of work is
logged and re-raised unchanged; with only close failing, the original is
still logged while the close error reaches the caller. -/
theorem C1_scope_discipline_witness :
    (runScope false ⟨none, none, none, none, none⟩
        (Except.error (α := Unit) ⟨"ValueError", "boom"⟩)).outcome
      = .error ⟨"ValueError", "boom"⟩
    ∧ (runScope false ⟨none, none, none, none, none⟩
        (Except.error (α := Unit) ⟨"ValueError", "boom"⟩)).logged
      = [⟨"ValueError", "boom"⟩]
    ∧ (runScope false ⟨none, none, none, none,
          some ⟨"OperationalError", "close failed"⟩⟩
        (Except.error (α := Unit) ⟨"ValueError", "boom"⟩)).outcome
      = .error ⟨"OperationalError", "close failed"⟩
    ∧ (runScope false ⟨none, none, none, none,
          some ⟨"OperationalError", "close failed"⟩⟩
        (Except.error (α := Unit) ⟨"ValueError", "boom"⟩)).logged
      = [⟨"ValueError", "boom"⟩] :=
  ⟨((C1_scope_discipline false ⟨none, none, none, none, none⟩
      (.error ⟨"ValueError", "boom"⟩)).2.2.1 ⟨"ValueError", "boom"⟩
      rfl rfl rfl rfl rfl).1,
   ((C1_scope_discipline false ⟨none, none, none, none, none⟩
      (.error ⟨"ValueError", "boom"⟩)).2.2.1 ⟨"ValueError", "boom"⟩
      rfl rfl rfl rfl rfl).2,
   (C1_scope_discipline false ⟨none, none, none, none,
       some ⟨"OperationalError", "close failed"⟩⟩
      (.error ⟨"ValueError", "boom"⟩)).2.2.2.2.2
      ⟨"OperationalError", "close failed"⟩ rfl rfl,
   (C1_scope_discipline false ⟨none, none, none, none,
       some ⟨"OperationalError", "close failed"⟩⟩
      (.error ⟨"ValueError", "boom"⟩)).2.2.2.1 ⟨"ValueError", "boom"⟩
      rfl rfl rfl rfl⟩

/-- C2: on the initialized, seeded store — where every connection runs
PRAGMA foreign_keys = ON but the schema script declares no FOREIGN KEY
constraint — deleting the first sample vehicle, which has three dependent
repairs, does NOT fail with a referential-integrity error: it succeeds,
reports one deleted row, removes the vehicle, and leaves the three repair
rows behind as orphans. -/
theorem C2_delete_with_dependents_succeeds :
    deleteOutcome = some (.pyInt 1)
    ∧ countWhere dbInit "vehicles" (vinIs demoVin) = 1
    ∧ countWhere dbInit "repairs" (vinIs demoVin) = 3
    ∧ countWhere dbAfterDelete "vehicles" (vinIs demoVin) = 0
    ∧ countWhere dbAfterDelete "repairs" (vinIs demoVin) = 3
    ∧ (∀ td ∈ schemaTableDefs, td.fks = []) :=
  ⟨rfl, rfl, rfl, rfl, rfl, by decide⟩

/-- C3 counterexample: the schema script of _create_tables_inline creates
exactly these eight tables — not nine — when run on an empty store. -/
theorem C3_counterexample_eight_tables :
    (runSchemaScript ⟨[]⟩).tables.map Prod.fst
      = ["users", "vehicles", "repairs", "fuel_logs", "maintenance_intervals",
         "mileage_history", "trips", "settings"]
    ∧ ((runSchemaScript ⟨[]⟩).tables.map Prod.fst).length ≠ 9 :=
  ⟨rfl, by decide⟩

/-- C3 (amended): createSchema issues create-table-if-absent statements for
all eight entity tables, and it is idempotent: after a successful pass all
eight tables are present, and running the pass again raises no error and
returns the very same store — same table set, no data lost. -/
theorem C3_createSchema_idempotent {db db2 : DB} {now now2 : Value}
    (h : create_tables_inline db now = .ok db2) :
    (∀ n ∈ schemaTableNames, (db2.findTable n).isSome = true)
    ∧ create_tables_inline db2 now2 = .ok db2 :=
  ⟨fun n hn => create_tables_inline_present h n hn,
   create_tables_inline_idem h⟩

/-- C3 witness: the first pass on the empty store yields dbInit; the second
pass returns dbInit unchanged, with the vehicles table present. -/
theorem C3_createSchema_idempotent_witness :
    create_tables_inline dbInit now0 = .ok dbInit
    ∧ (dbInit.findTable "vehicles").isSome = true :=
  ⟨(@C3_createSchema_idempotent ⟨[]⟩ dbInit now0 now0 rfl).2,
   (@C3_createSchema_idempotent ⟨[]⟩ dbInit now0 now0 rfl).1 "vehicles"
     (by decide)⟩

/-- C7: seeding is guarded — a vehicles table that already has at least one
row makes seed a no-op with no error — and two successful seeding passes
end in the very state the first one produced, so every table's row count
after the second call equals its count after the first. -/
theorem C7_seed_guarded_idempotent (db db2 db3 : DB) (now now2 : Value) :
    (rowCount db "vehicles" > 0 → seed_sample_data db now = .ok db)
    ∧ (seed_sample_data db now = .ok db2 →
       seed_sample_data db2 now2 = .ok db3 → db3 = db2) := by
  constructor
  · intro hpos
    unfold rowCount countWhere at hpos
    cases hf : db.findTable "vehicles" with
    | none => rw [hf] at hpos; cases hpos
    | some t =>
      rw [hf] at hpos
      dsimp only at hpos
      refine seed_skip_of_nonempty hf ?_
      intro hnil
      rw [hnil] at hpos
      simp at hpos
  · intro h1 h2
    obtain ⟨t2, ht2, hne⟩ := seed_vehicles_nonempty h1
    rw [seed_skip_of_nonempty ht2 hne] at h2
    cases h2
    rfl

/-- C7 witness: the initialized store has ten vehicles, so a further
seeding pass returns it unchanged. -/
theorem C7_seed_guarded_idempotent_witness :
    rowCount dbInit "vehicles" > 0
    ∧ seed_sample_data dbInit now0 = .ok dbInit :=
  ⟨by decide,
   (C7_seed_guarded_idempotent dbInit dbInit dbInit now0 now0).1 (by decide)⟩

/-- C8: ensure_initialized invokes the schema-and-seed initializer exactly
when the store file does not exist or the vehicles table is absent; when
the file exists and the vehicles table is present it returns the state
untouched; and a successful call is idempotent. -/
theorem C8_ensure_initialized (s : AppState) (now : Value) :
    (s.fileExists = true → table_exists s.db "vehicles" = true →
      ensure_initialized s now = .ok s)
    ∧ (s.fileExists = false ∨ table_exists s.db "vehicles" = false →
      ensure_initialized s now
        = (create_tables_inline s.db now).map (fun d => ⟨true, d⟩))
    ∧ (∀ s2, ensure_initialized s now = .ok s2 →
        ensure_initialized s2 now = .ok s2) := by
  refine ⟨fun h1 h2 => ?_, fun h => ?_, fun s2 h => ?_⟩
  · simp [ensure_initialized, h1, h2]
  · rcases h with h | h <;> simp [ensure_initialized, h]
  · unfold ensure_initialized at h ⊢
    by_cases hc : (!s.fileExists || !table_exists s.db "vehicles") = true
    · rw [if_pos hc] at h
      cases hcr : create_tables_inline s.db now with
      | error e => rw [hcr] at h; cases h
      | ok dbn =>
        rw [hcr] at h
        simp only [Except.map] at h
        cases h
        obtain ⟨t2, ht2, hne⟩ := create_tables_inline_vehicles_nonempty hcr
        have hex : table_exists dbn "vehicles" = true := by
          simp [table_exists, ht2]
        simp [hex]
    · rw [if_neg hc] at h
      cases h
      rw [if_neg hc]

/-- C8 witness: after initializing from a fresh start, a second call
returns the state untouched. -/
theorem C8_ensure_initialized_witness :
    ensure_initialized ⟨true, dbInit⟩ now0 = .ok ⟨true, dbInit⟩ :=
  (C8_ensure_initialized ⟨false, ⟨[]⟩⟩ now0).2.2 ⟨true, dbInit⟩ rfl
